import Mathlib

/-!
Shallow embedding of the fitness-app core (Go sources under internal/service,
internal/repository and internal/domain): the ownership-authorization chain,
the assignment lifecycle state machine and the video-upload saga.

Mongo ObjectIDs are modelled as `Nat`, with `0` playing the role of
`primitive.NilObjectID`.  `time.Time` values are opaque `Nat` instants passed
in as a `now` parameter.  Each repository collection is a `List` of records
looked up by id with `find?` (GetByID) and updated by replacing the record
with the matching id (Mongo `UpdateOne` on the `_id` filter).  Repository /
gateway calls that can fail for infrastructure reasons in Go are driven by an
explicit `Faults` record so that partial-failure behaviour of the upload saga
is visible in the model.
-/

/-- Decidable equality of `Except` results, so concrete runs of the modelled
operations can be checked by `decide`. -/
instance {ε α : Type} [DecidableEq ε] [DecidableEq α] : DecidableEq (Except ε α)
  | .error e, .error f =>
    if h : e = f then .isTrue (by rw [h]) else .isFalse (by simp [h])
  | .error _, .ok _ => .isFalse (by simp)
  | .ok _, .error _ => .isFalse (by simp)
  | .ok a, .ok b =>
    if h : a = b then .isTrue (by rw [h]) else .isFalse (by simp [h])

namespace FitnessApp

/-- domain.AssignmentStatus is a plain string in the source. -/
abbrev AssignmentStatus := String

/-- domain.StatusAssigned -/
def StatusAssigned : AssignmentStatus := "assigned"

/-- domain.StatusSubmitted -/
def StatusSubmitted : AssignmentStatus := "submitted"

/-- domain.StatusReviewed -/
def StatusReviewed : AssignmentStatus := "reviewed"

/-- domain.StatusCompleted -/
def StatusCompleted : AssignmentStatus := "completed"

/-- domain.Role (string) and its two constants. -/
abbrev Role := String

/-- domain.RoleTrainer -/
def RoleTrainer : Role := "trainer"

/-- domain.RoleClient -/
def RoleClient : Role := "client"

/-- domain.User (internal/domain/user.go). -/
structure User where
  id : Nat
  name : String
  email : String
  passwordHash : String
  role : Role
  clientIDs : List Nat
  trainerID : Option Nat
  createdAt : Nat
  updatedAt : Nat
  deriving Repr, DecidableEq

/-- domain.TrainingPlan (internal/domain/training_plan.go). -/
structure TrainingPlan where
  id : Nat
  trainerID : Nat
  clientID : Nat
  name : String
  description : String
  startDate : Option Nat
  endDate : Option Nat
  isActive : Bool
  createdAt : Nat
  updatedAt : Nat
  deriving Repr, DecidableEq

/-- domain.Workout (internal/domain, Workout struct). -/
structure Workout where
  id : Nat
  trainingPlanID : Nat
  trainerID : Nat
  clientID : Nat
  name : String
  dayOfWeek : Option Int
  notes : String
  sequence : Int
  createdAt : Nat
  updatedAt : Nat
  deriving Repr, DecidableEq

/-- domain.Assignment (internal/domain/assignment.go, the workout-linked
version; the achieved-performance fields are the ones read and written by
LogPerformanceForMyAssignment and the assignment repository). -/
structure Assignment where
  id : Nat
  workoutID : Nat
  exerciseID : Nat
  sets : Option Int
  reps : Option String
  rest : Option String
  tempo : Option String
  weight : Option String
  duration : Option String
  sequence : Int
  trainerNotes : String
  assignedAt : Nat
  status : AssignmentStatus
  clientNotes : String
  uploadID : Option Nat
  feedback : String
  achievedSets : Option Int
  achievedReps : Option String
  achievedWeight : Option String
  achievedDuration : Option String
  clientPerformanceNotes : Option String
  updatedAt : Nat
  deriving Repr, DecidableEq

/-- domain.Upload (internal/domain/upload.go). -/
structure Upload where
  id : Nat
  assignmentID : Nat
  clientID : Nat
  trainerID : Nat
  s3ObjectKey : String
  fileName : String
  contentType : String
  size : Int
  uploadedAt : Nat
  deriving Repr, DecidableEq

/-- The entity store: one collection per entity plus a fresh-id counter used
by the Create methods of the repositories. -/
structure DB where
  users : List User
  plans : List TrainingPlan
  workouts : List Workout
  assignments : List Assignment
  uploads : List Upload
  nextID : Nat
  deriving Repr, DecidableEq

/-- userRepo.GetByID -/
def DB.findUser (db : DB) (id : Nat) : Option User :=
  db.users.find? (fun u => u.id == id)

/-- trainingPlanRepo.GetByID -/
def DB.findPlan (db : DB) (id : Nat) : Option TrainingPlan :=
  db.plans.find? (fun p => p.id == id)

/-- workoutRepo.GetByID -/
def DB.findWorkout (db : DB) (id : Nat) : Option Workout :=
  db.workouts.find? (fun w => w.id == id)

/-- assignmentRepo.GetByID -/
def DB.findAssignment (db : DB) (id : Nat) : Option Assignment :=
  db.assignments.find? (fun a => a.id == id)

/-- uploadRepo.GetByID -/
def DB.findUpload (db : DB) (id : Nat) : Option Upload :=
  db.uploads.find? (fun u => u.id == id)

/-- assignmentRepo.Update: Mongo UpdateOne with an `_id` filter that rewrites
every stored field from the in-memory record and stamps updatedAt. -/
def DB.updateAssignment (db : DB) (a : Assignment) (now : Nat) : DB :=
  { db with assignments :=
      db.assignments.map (fun x => if x.id == a.id then { a with updatedAt := now } else x) }

/-- workoutRepo.Update: UpdateOne by `_id`, rewriting the leaf fields and
stamping updatedAt. -/
def DB.updateWorkout (db : DB) (w : Workout) (now : Nat) : DB :=
  { db with workouts :=
      db.workouts.map (fun x => if x.id == w.id then { w with updatedAt := now } else x) }

/-- trainingPlanRepo.Update: UpdateOne by `_id` setting name, description,
dates, isActive and updatedAt (trainerId/clientId/createdAt are never written
by the update document). -/
def DB.updatePlan (db : DB) (p : TrainingPlan) (now : Nat) : DB :=
  { db with plans :=
      db.plans.map (fun x =>
        if x.id == p.id then
          { x with name := p.name, description := p.description,
                   startDate := p.startDate, endDate := p.endDate,
                   isActive := p.isActive, updatedAt := now }
        else x) }

/-- uploadRepo.Create: inserts the record with a fresh id and stamps
uploadedAt; returns the new state and the generated id. -/
def DB.createUpload (db : DB) (u : Upload) (now : Nat) : DB × Nat :=
  let uid := db.nextID
  ({ db with uploads := db.uploads ++ [{ u with id := uid, uploadedAt := now }],
             nextID := db.nextID + 1 }, uid)

/-- Every error value a modelled operation can surface.  Each named Go
sentinel error (`errors.New` package-level variable) gets its own
constructor; ad-hoc inline `errors.New(...)` messages are carried by
`invalidInput` (input validation) or `internalMsg` (other inline errors), with
the Go message kept verbatim. -/
inductive SvcError where
  | invalidInput (msg : String)
  | internalMsg (msg : String)
  | errAssignmentNotFound
  | errWorkoutNotFound
  | errTrainingPlanNotFound
  | errTrainingPlanAccessDenied
  | errTrainingPlanCreationFailed
  | errWorkoutCreationFailed
  | errAssignmentAccessDenied
  | errAssignmentNotBelongToClient
  | errUploadNotAllowed
  | errUploadConfirmationFailed
  | errUploadURLError
  | errDownloadURLError
  | errUploadMetadataMissing
  | errUploadNotFoundForAssignment
  | errS3URLGenerationFailed
  | errInvalidAssignmentStatusUpdate
  | errClientNotFound
  | errClientNotManaged
  | errPlanNotAssignedToClient
  | errWorkoutNotBelongToPlan
  deriving Repr, DecidableEq

/-- Infrastructure failures injected into the repository / object-storage
gateways, so the saga's partial-failure paths can be exercised.  All default
to `false` (the gateway succeeds). -/
structure Faults where
  uploadCreateFails : Bool := false
  assignmentUpdateFails : Bool := false
  presignFails : Bool := false
  deriving Repr, DecidableEq

/-- No injected infrastructure failures. -/
def noFaults : Faults := {}

/-- service.UploadURLResponse -/
structure UploadURLResponse where
  uploadURL : String
  objectKey : String
  deriving Repr, DecidableEq

/-- fileStorage.GeneratePresignedUploadURL, modelled as a pure function of the
object key and content type (the gateway issues a deterministic capability
URL for the key; expiry is enforced by the gateway, not by this core). -/
def presignedUploadURL (objectKey contentType : String) : String :=
  "PUT:" ++ objectKey ++ ":" ++ contentType

/-- fileStorage.GeneratePresignedDownloadURL, modelled likewise. -/
def presignedDownloadURL (objectKey : String) : String :=
  "GET:" ++ objectKey

/-- The content-type guard of RequestUploadURL:
strings.HasPrefix(strings.ToLower(contentType), "video/"), computed on the
character lists so that it evaluates inside proofs. -/
def isVideoContentType (contentType : String) : Bool :=
  "video/".data.isPrefixOf (contentType.data.map Char.toLower)

/-- strings.Split(s, "/") on the character list (single-character
separator). -/
def splitSlash : List Char → List (List Char)
  | [] => [[]]
  | c :: rest =>
    match splitSlash rest with
    | [] => [[c]]
    | h :: t => if c = '/' then [] :: h :: t else (c :: h) :: t

/-- The S3 object key built by RequestUploadURL:
path.Join("uploads", clientID.Hex(), assignmentID.Hex(),
fmt.Sprintf("%s.%s", uniqueID, fileExtension)) where fileExtension is the
second part of strings.Split(contentType, "/") when that split has exactly
two parts.  The random uuid.NewString() value is an explicit `uniqueID`
argument. -/
def objectKeyFor (clientID assignmentID : Nat) (uniqueID contentType : String) : String :=
  let ext : String :=
    match splitSlash contentType.data with
    | [_, e] => ⟨e⟩
    | _ => ""
  "uploads/" ++ toString clientID ++ "/" ++ toString assignmentID ++ "/" ++ uniqueID ++ "." ++ ext

/-- clientService.RequestUploadURL (internal/service/client_service.go):
validates inputs and the video content type, authorizes through the
assignment's workout, applies the status gate, then asks the storage gateway
for a presigned PUT URL.  No persistent state changes. -/
def RequestUploadURL (db : DB) (clientID assignmentID : Nat) (contentType : String)
    (uniqueID : String) (faults : Faults) : Except SvcError UploadURLResponse :=
  if clientID = 0 ∨ assignmentID = 0 then
    .error (.invalidInput "client ID and assignment ID are required")
  else if contentType = "" ∨ ¬ (isVideoContentType contentType) then
    .error (.invalidInput "invalid or missing video content type")
  else
    match db.findAssignment assignmentID with
    | none => .error .errAssignmentNotFound
    | some assignment =>
      match db.findWorkout assignment.workoutID with
      | none => .error .errWorkoutNotFound
      | some workout =>
        if workout.clientID ≠ clientID then
          .error .errAssignmentNotBelongToClient
        else if assignment.status ≠ StatusAssigned ∧ assignment.status ≠ StatusReviewed ∧
            assignment.status ≠ StatusCompleted then
          .error .errUploadNotAllowed
        else
          let objectKey := objectKeyFor clientID assignmentID uniqueID contentType
          if faults.presignFails then .error .errUploadURLError
          else .ok { uploadURL := presignedUploadURL objectKey contentType,
                     objectKey := objectKey }

/-- clientService.ConfirmUpload (internal/service/client_service.go):
validates, authorizes through the workout, creates the Upload record from the
caller-asserted metadata (TrainerID copied from the workout), then updates
the assignment with the new upload reference and status "submitted".
If the assignment update fails after the Upload record was created, the
compensating delete of the orphan is commented out in the source, so the
state keeps the freshly created Upload while ErrUploadConfirmationFailed is
returned.  The final state is returned alongside the result. -/
def ConfirmUpload (db : DB) (clientID assignmentID : Nat) (objectKey fileName : String)
    (fileSize : Int) (contentType : String) (now : Nat) (faults : Faults) :
    DB × Except SvcError Assignment :=
  if clientID = 0 ∨ assignmentID = 0 ∨ objectKey = "" then
    (db, .error (.invalidInput "client ID, assignment ID, and object key are required"))
  else
    match db.findAssignment assignmentID with
    | none => (db, .error .errAssignmentNotFound)
    | some assignment =>
      match db.findWorkout assignment.workoutID with
      | none => (db, .error .errWorkoutNotFound)
      | some workout =>
        if workout.clientID ≠ clientID then
          (db, .error .errAssignmentNotBelongToClient)
        else
          let upload : Upload :=
            { id := 0, assignmentID := assignmentID, clientID := clientID,
              trainerID := workout.trainerID, s3ObjectKey := objectKey,
              fileName := fileName, contentType := contentType, size := fileSize,
              uploadedAt := 0 }
          if faults.uploadCreateFails then
            (db, .error .errUploadConfirmationFailed)
          else
            let created := db.createUpload upload now
            let updated := { assignment with uploadID := some created.2,
                                             status := StatusSubmitted }
            if faults.assignmentUpdateFails then
              (created.1, .error .errUploadConfirmationFailed)
            else
              (created.1.updateAssignment updated now, .ok updated)

/-- clientService.GetMyVideoDownloadURL (internal/service/client_service.go):
authorizes the owning client, then resolves the assignment's upload
reference.  A nil/zero reference and a dangling reference both surface
ErrUploadMetadataMissing. -/
def GetMyVideoDownloadURL (db : DB) (clientID assignmentID : Nat) (faults : Faults) :
    Except SvcError String :=
  match db.findAssignment assignmentID with
  | none => .error .errAssignmentNotFound
  | some assignment =>
    match db.findWorkout assignment.workoutID with
    | none => .error .errWorkoutNotFound
    | some workout =>
      if workout.clientID ≠ clientID then
        .error .errAssignmentNotBelongToClient
      else
        match assignment.uploadID with
        | none => .error .errUploadMetadataMissing
        | some uid =>
          if uid = 0 then .error .errUploadMetadataMissing
          else
            match db.findUpload uid with
            | none => .error .errUploadMetadataMissing
            | some upload =>
              if faults.presignFails then .error .errDownloadURLError
              else .ok (presignedDownloadURL upload.s3ObjectKey)

/-- clientService.GetAssignmentsForMyWorkout
(internal/service/client_service.go): verifies the workout exists and is
assigned to the calling client, then lists the workout's assignments (the
repository sorts by sequence; ordering is immaterial here). -/
def GetAssignmentsForMyWorkout (db : DB) (clientID workoutID : Nat) :
    Except SvcError (List Assignment) :=
  if clientID = 0 ∨ workoutID = 0 then
    .error (.invalidInput "client ID and workout ID are required")
  else
    match db.findWorkout workoutID with
    | none => .error .errWorkoutNotFound
    | some workout =>
      if workout.clientID ≠ clientID then
        .error .errWorkoutNotBelongToPlan
      else
        .ok (db.assignments.filter (fun a => a.workoutID == workoutID))

/-- clientService.UpdateMyAssignmentStatus
(internal/service/client_service.go): the client may only request
"completed"; after authorization the status is overwritten with no check of
the assignment's current status. -/
def UpdateMyAssignmentStatus (db : DB) (clientID assignmentID : Nat)
    (newStatus : AssignmentStatus) (now : Nat) : DB × Except SvcError Assignment :=
  if clientID = 0 ∨ assignmentID = 0 then
    (db, .error (.invalidInput "client ID and assignment ID are required"))
  else if newStatus = "" then
    (db, .error (.invalidInput "new status cannot be empty"))
  else if newStatus ≠ StatusCompleted then
    (db, .error .errInvalidAssignmentStatusUpdate)
  else
    match db.findAssignment assignmentID with
    | none => (db, .error .errAssignmentNotFound)
    | some assignment =>
      match db.findWorkout assignment.workoutID with
      | none => (db, .error .errWorkoutNotFound)
      | some workout =>
        if workout.clientID ≠ clientID then
          (db, .error .errAssignmentNotBelongToClient)
        else
          let updated := { assignment with status := newStatus, updatedAt := now }
          (db.updateAssignment updated now, .ok updated)

/-- clientService.LogPerformanceForMyAssignment
(internal/service/client_service.go): copies the achieved-performance fields
from the caller-supplied record onto the stored assignment; if the status was
still "assigned" it becomes "completed", otherwise it is left as is. -/
def LogPerformanceForMyAssignment (db : DB) (clientID assignmentID : Nat)
    (performanceData : Assignment) (now : Nat) : DB × Except SvcError Assignment :=
  if clientID = 0 ∨ assignmentID = 0 then
    (db, .error (.invalidInput "client ID and assignment ID are required"))
  else
    match db.findAssignment assignmentID with
    | none => (db, .error .errAssignmentNotFound)
    | some assignment =>
      match db.findWorkout assignment.workoutID with
      | none => (db, .error .errWorkoutNotFound)
      | some workout =>
        if workout.clientID ≠ clientID then
          (db, .error .errAssignmentNotBelongToClient)
        else
          let withPerf :=
            { assignment with
                achievedSets := performanceData.achievedSets,
                achievedReps := performanceData.achievedReps,
                achievedWeight := performanceData.achievedWeight,
                achievedDuration := performanceData.achievedDuration,
                clientPerformanceNotes := performanceData.clientPerformanceNotes }
          let withStatus :=
            if withPerf.status = StatusAssigned then
              { withPerf with status := StatusCompleted }
            else withPerf
          let final := { withStatus with updatedAt := now }
          (db.updateAssignment final now, .ok final)

/-- trainerService.SubmitFeedback (trainer service, workout-based version):
a non-empty target status must be "reviewed" or "completed", the trainer must
own the assignment's workout, then the feedback (and, when non-empty, the
status) is written. -/
def SubmitFeedback (db : DB) (trainerID assignmentID : Nat)
    (feedback : String) (newStatus : AssignmentStatus) (now : Nat) :
    DB × Except SvcError Assignment :=
  if trainerID = 0 ∨ assignmentID = 0 then
    (db, .error (.invalidInput "trainer ID and assignment ID are required"))
  else if newStatus ≠ "" ∧ ¬ (newStatus = StatusReviewed ∨ newStatus = StatusCompleted) then
    (db, .error (.invalidInput "invalid status transition for feedback"))
  else
    match db.findAssignment assignmentID with
    | none => (db, .error .errAssignmentNotFound)
    | some assignment =>
      match db.findWorkout assignment.workoutID with
      | none => (db, .error .errWorkoutNotFound)
      | some workout =>
        if workout.trainerID ≠ trainerID then
          (db, .error .errAssignmentAccessDenied)
        else
          let withFeedback := { assignment with feedback := feedback }
          let updated :=
            if newStatus ≠ "" then { withFeedback with status := newStatus }
            else withFeedback
          (db.updateAssignment updated now, .ok updated)

/-- TrainerHandler.SubmitFeedbackForAssignment
(internal/api/trainer_handler.go): the HTTP handler's own status validation
("Trainer can set to reviewed or assigned (for re-do)") before delegating to
trainerService.SubmitFeedback; a rejected status is a 400, modelled as an
`invalidInput` error. -/
def SubmitFeedbackForAssignment (db : DB) (trainerID assignmentID : Nat)
    (feedback : String) (status : AssignmentStatus) (now : Nat) :
    DB × Except SvcError Assignment :=
  if status ≠ StatusReviewed ∧ status ≠ StatusAssigned then
    (db, .error (.invalidInput "Invalid target status provided by trainer."))
  else
    SubmitFeedback db trainerID assignmentID feedback status now

/-- trainerService.GetAssignmentVideoDownloadURL (trainer service): the
trainer-side twin of GetMyVideoDownloadURL; a nil/zero upload reference and a
dangling reference both surface ErrUploadNotFoundForAssignment. -/
def GetAssignmentVideoDownloadURL (db : DB) (trainerID assignmentID : Nat)
    (faults : Faults) : Except SvcError String :=
  if trainerID = 0 ∨ assignmentID = 0 then
    .error (.invalidInput "trainer ID and assignment ID are required")
  else
    match db.findAssignment assignmentID with
    | none => .error .errAssignmentNotFound
    | some assignment =>
      match db.findWorkout assignment.workoutID with
      | none => .error .errWorkoutNotFound
      | some workout =>
        if workout.trainerID ≠ trainerID then
          .error .errAssignmentAccessDenied
        else
          match assignment.uploadID with
          | none => .error .errUploadNotFoundForAssignment
          | some uid =>
            if uid = 0 then .error .errUploadNotFoundForAssignment
            else
              match db.findUpload uid with
              | none => .error .errUploadNotFoundForAssignment
              | some upload =>
                if faults.presignFails then .error .errS3URLGenerationFailed
                else .ok (presignedDownloadURL upload.s3ObjectKey)

/-- trainerService.CreateWorkout (trainer service): the parent plan must
resolve and be owned by the requesting trainer; trainerID and the plan's
clientID are denormalized onto the new workout at creation. -/
def CreateWorkout (db : DB) (trainerID planID : Nat) (name : String)
    (dayOfWeek : Option Int) (notes : String) (sequence : Int) (now : Nat) :
    DB × Except SvcError Workout :=
  if trainerID = 0 ∨ planID = 0 ∨ name = "" then
    (db, .error (.invalidInput "trainer ID, plan ID, and workout name are required"))
  else
    match db.findPlan planID with
    | none => (db, .error .errTrainingPlanNotFound)
    | some plan =>
      if plan.trainerID ≠ trainerID then
        (db, .error .errTrainingPlanAccessDenied)
      else
        let wid := db.nextID
        let workout : Workout :=
          { id := wid, trainingPlanID := planID, trainerID := trainerID,
            clientID := plan.clientID, name := name, dayOfWeek := dayOfWeek,
            notes := notes, sequence := sequence, createdAt := now, updatedAt := now }
        ({ db with workouts := db.workouts ++ [workout], nextID := db.nextID + 1 },
         .ok workout)

/-- trainerService.UpdateWorkout (trainer service): after resolving the
workout and checking it belongs to the given plan and trainer, only name,
dayOfWeek, notes and sequence are copied from the update; ClientID and
TrainingPlanID (and the denormalized TrainerID) are not changed. -/
def UpdateWorkout (db : DB) (trainerID planID workoutID : Nat) (updates : Workout)
    (now : Nat) : DB × Except SvcError Workout :=
  if trainerID = 0 ∨ planID = 0 ∨ workoutID = 0 ∨ updates.name = "" then
    (db, .error (.invalidInput "trainer ID, plan ID, workout ID, and new workout name are required"))
  else
    match db.findWorkout workoutID with
    | none => (db, .error .errWorkoutNotFound)
    | some existing =>
      if existing.trainingPlanID ≠ planID then
        (db, .error (.internalMsg "workout does not belong to the specified training plan"))
      else if existing.trainerID ≠ trainerID then
        (db, .error (.internalMsg "access denied: trainer does not own this workout"))
      else
        let updated :=
          { existing with name := updates.name, dayOfWeek := updates.dayOfWeek,
                          notes := updates.notes, sequence := updates.sequence }
        (db.updateWorkout updated now, .ok updated)

/-- trainerService.CreateTrainingPlan (trainer service): the client must
exist, have the client role and be managed by the requesting trainer.  The
"deactivate other active plans when isActive is set" step is commented out in
the source ("For simplicity now, we'll just set it as provided"), so the plan
is stored exactly as provided. -/
def CreateTrainingPlan (db : DB) (trainerID clientID : Nat) (name description : String)
    (startDate endDate : Option Nat) (isActive : Bool) (now : Nat) :
    DB × Except SvcError TrainingPlan :=
  if trainerID = 0 ∨ clientID = 0 ∨ name = "" then
    (db, .error (.invalidInput "trainer ID, client ID, and plan name are required"))
  else
    match db.findUser clientID with
    | none => (db, .error .errClientNotFound)
    | some client =>
      if client.role ≠ RoleClient then
        (db, .error (.internalMsg "cannot assign plan: specified user is not a client"))
      else if client.trainerID ≠ some trainerID then
        (db, .error .errClientNotManaged)
      else
        let pid := db.nextID
        let plan : TrainingPlan :=
          { id := pid, trainerID := trainerID, clientID := clientID, name := name,
            description := description, startDate := startDate, endDate := endDate,
            isActive := isActive, createdAt := now, updatedAt := now }
        ({ db with plans := db.plans ++ [plan], nextID := db.nextID + 1 }, .ok plan)

/-- mongoTrainingPlanRepository.DeactivateOtherPlansForClient
(internal/repository/mongo/training_plan_repo.go): UpdateMany setting
isActive to false on every active plan of the client-trainer pair other than
the excluded one. -/
def DeactivateOtherPlansForClient (db : DB) (clientID trainerID excludePlanID : Nat)
    (now : Nat) : DB :=
  { db with plans :=
      db.plans.map (fun p =>
        if p.clientID == clientID && p.trainerID == trainerID && p.isActive &&
            p.id != excludePlanID then
          { p with isActive := false, updatedAt := now }
        else p) }

/-- trainerService.UpdateTrainingPlan (trainer service): ownership and
client-consistency checks, then — only when the update flips isActive from
false to true — other active plans of the pair are deactivated (a failure of
that step is merely logged in the source; the entity store in this model
succeeds), and finally the plan's leaf fields are written. -/
def UpdateTrainingPlan (db : DB) (trainerID planID : Nat) (updates : TrainingPlan)
    (now : Nat) : DB × Except SvcError TrainingPlan :=
  if trainerID = 0 ∨ planID = 0 ∨ updates.name = "" then
    (db, .error (.invalidInput "trainer ID, plan ID, and new plan name are required"))
  else
    match db.findPlan planID with
    | none => (db, .error .errTrainingPlanNotFound)
    | some existingPlan =>
      if existingPlan.trainerID ≠ trainerID then
        (db, .error .errTrainingPlanAccessDenied)
      else if existingPlan.clientID ≠ updates.clientID ∧ updates.clientID ≠ 0 then
        (db, .error (.internalMsg "cannot change the client associated with a training plan via update"))
      else
        let db1 :=
          if updates.isActive && !existingPlan.isActive then
            DeactivateOtherPlansForClient db existingPlan.clientID trainerID planID now
          else db
        let updated :=
          { existingPlan with name := updates.name, description := updates.description,
                              startDate := updates.startDate, endDate := updates.endDate,
                              isActive := updates.isActive }
        (db1.updatePlan updated now, .ok updated)

/-!
Concrete fixture used by witnesses and counterexamples: trainer 10 manages
client 20; plan 1 belongs to that pair and is active; workout 2 sits under
plan 1; assignment 3 (status parametrized) sits under workout 2, and
assignment 4 carries a dangling upload reference (upload 99 is absent).
-/

/-- Fixture: the trainer (id 10). -/
def trainerU : User :=
  { id := 10, name := "T", email := "t@example.com", passwordHash := "h",
    role := RoleTrainer, clientIDs := [20], trainerID := none,
    createdAt := 0, updatedAt := 0 }

/-- Fixture: the client (id 20), managed by trainer 10. -/
def clientU : User :=
  { id := 20, name := "C", email := "c@example.com", passwordHash := "h",
    role := RoleClient, clientIDs := [], trainerID := some 10,
    createdAt := 0, updatedAt := 0 }

/-- Fixture: active plan 1 for the pair (trainer 10, client 20). -/
def plan1 : TrainingPlan :=
  { id := 1, trainerID := 10, clientID := 20, name := "P1", description := "",
    startDate := none, endDate := none, isActive := true,
    createdAt := 0, updatedAt := 0 }

/-- Fixture: workout 2 under plan 1, denormalized ids from the plan. -/
def wk1 : Workout :=
  { id := 2, trainingPlanID := 1, trainerID := 10, clientID := 20,
    name := "Day 1", dayOfWeek := none, notes := "", sequence := 0,
    createdAt := 0, updatedAt := 0 }

/-- Fixture: assignment 3 under workout 2, with the given status and no
upload reference. -/
def asg1 (st : AssignmentStatus) : Assignment :=
  { id := 3, workoutID := 2, exerciseID := 7, sets := some 3, reps := some "8-12",
    rest := none, tempo := none, weight := none, duration := none, sequence := 0,
    trainerNotes := "", assignedAt := 0, status := st, clientNotes := "",
    uploadID := none, feedback := "", achievedSets := none, achievedReps := none,
    achievedWeight := none, achievedDuration := none,
    clientPerformanceNotes := none, updatedAt := 0 }

/-- Fixture: assignment 4 under workout 2 whose upload reference 99 is
dangling (no Upload record with that id exists). -/
def asgDangling : Assignment :=
  { asg1 StatusSubmitted with id := 4, uploadID := some 99 }

/-- Fixture: the whole store. -/
def baseDB (st : AssignmentStatus) : DB :=
  { users := [trainerU, clientU], plans := [plan1], workouts := [wk1],
    assignments := [asg1 st, asgDangling], uploads := [], nextID := 50 }

/-- Replacing the record with a given id inside a list (the model of a Mongo
UpdateOne on the `_id` filter) commutes with `find?` by id: the lookup that
used to return `a` afterwards returns the replacement `b`, provided `b`
keeps the id of `a`. -/
theorem find?_id_map_replace {α : Type} (idf : α → Nat) (l : List α) (i : Nat) (a b : α)
    (hb : idf b = idf a) (h : l.find? (fun x => idf x == i) = some a) :
    (l.map (fun x => if idf x == idf a then b else x)).find? (fun x => idf x == i) =
      some b := by
  have ha := List.find?_some h
  have hai : idf a = i := by simpa using ha
  induction l with
  | nil => simp at h
  | cons hd tl ih =>
    by_cases hhd : idf hd = i
    · have hpos : ((fun x => idf x == i) hd) = true := by simp [hhd]
      rw [List.find?_cons_of_pos (p := fun x => idf x == i) _ hpos] at h
      have heq : a = hd := by injection h with h2; exact h2.symm
      subst heq
      simp only [List.map_cons, beq_self_eq_true, if_true]
      exact List.find?_cons_of_pos (p := fun x => idf x == i) _ (by simp [hb, hai])
    · have hneg : ¬ ((fun x => idf x == i) hd = true) := by simp [hhd]
      rw [List.find?_cons_of_neg (p := fun x => idf x == i) _ hneg] at h
      have hne : (idf hd == idf a) = false := by
        simp only [beq_eq_false_iff_ne, ne_eq]
        intro hcontra
        exact hhd (hcontra.trans hai)
      simp only [List.map_cons, hne, Bool.false_eq_true, if_false]
      rw [List.find?_cons_of_neg (p := fun x => idf x == i) _ hneg]
      exact ih h

/-- **C4**: for an assignment belonging to the calling client (resolved
through its workout) and a well-formed video upload request, RequestUploadURL
can succeed only when the assignment status is "assigned", "reviewed" or
"completed", and when the status is "submitted" it always fails with
ErrUploadNotAllowed. -/
theorem requestUploadURL_status_gate (db : DB) (clientID assignmentID : Nat)
    (contentType uniqueID : String) (f : Faults) (a : Assignment) (w : Workout)
    (hcid : clientID ≠ 0) (haid : assignmentID ≠ 0)
    (hct : isVideoContentType contentType = true)
    (ha : db.findAssignment assignmentID = some a)
    (hw : db.findWorkout a.workoutID = some w)
    (hown : w.clientID = clientID) :
    ((RequestUploadURL db clientID assignmentID contentType uniqueID f).isOk = true →
        a.status = StatusAssigned ∨ a.status = StatusReviewed ∨ a.status = StatusCompleted)
    ∧ (a.status = StatusSubmitted →
        RequestUploadURL db clientID assignmentID contentType uniqueID f =
          .error .errUploadNotAllowed) := by
  have hne : contentType ≠ "" := by
    intro hempty
    rw [hempty] at hct
    exact absurd hct (by decide)
  simp only [RequestUploadURL, ha, hw]
  rw [if_neg (by simp [hcid, haid]), if_neg (by simp [hne, hct]),
      if_neg (show ¬(w.clientID ≠ clientID) by simp [hown])]
  constructor
  · intro hok
    by_cases h1 : a.status = StatusAssigned
    · exact Or.inl h1
    by_cases h2 : a.status = StatusReviewed
    · exact Or.inr (Or.inl h2)
    by_cases h3 : a.status = StatusCompleted
    · exact Or.inr (Or.inr h3)
    rw [if_pos ⟨h1, h2, h3⟩] at hok
    exact absurd hok (by decide)
  · intro hs
    rw [if_pos ⟨by rw [hs]; decide, by rw [hs]; decide, by rw [hs]; decide⟩]

/-- Witness for the C4 theorem at the concrete fixture with status
"submitted". -/
theorem requestUploadURL_status_gate_witness :
    ((RequestUploadURL (baseDB StatusSubmitted) 20 3 "video/mp4" "u1" noFaults).isOk = true →
        (asg1 StatusSubmitted).status = StatusAssigned ∨
          (asg1 StatusSubmitted).status = StatusReviewed ∨
          (asg1 StatusSubmitted).status = StatusCompleted)
    ∧ ((asg1 StatusSubmitted).status = StatusSubmitted →
        RequestUploadURL (baseDB StatusSubmitted) 20 3 "video/mp4" "u1" noFaults =
          .error .errUploadNotAllowed) :=
  requestUploadURL_status_gate (baseDB StatusSubmitted) 20 3 "video/mp4" "u1" noFaults
    (asg1 StatusSubmitted) wk1 (by decide) (by decide) (by decide) (by decide) (by decide)
    (by decide)

/-- **C5**: for an assignment belonging to the calling client and any prior
status, ConfirmUpload (with the entity store up) succeeds and leaves the
assignment — both the returned value and the persisted record — with status
"submitted" and a non-null upload reference resolving to the newly created
Upload record that carries the confirmed object key and metadata.  `hfresh`
says the store's fresh-id counter is not already in use, which the Create
methods guarantee. -/
theorem confirmUpload_submits (db : DB) (clientID assignmentID : Nat)
    (objectKey fileName : String) (fileSize : Int) (contentType : String)
    (now : Nat) (f : Faults) (assignment : Assignment) (workout : Workout)
    (hcid : clientID ≠ 0) (haid : assignmentID ≠ 0) (hkey : objectKey ≠ "")
    (hfound : db.findAssignment assignmentID = some assignment)
    (hwfound : db.findWorkout assignment.workoutID = some workout)
    (hown : workout.clientID = clientID)
    (hf1 : f.uploadCreateFails = false) (hf2 : f.assignmentUpdateFails = false)
    (hfresh : ∀ u ∈ db.uploads, u.id ≠ db.nextID) :
    ∃ db' a',
      ConfirmUpload db clientID assignmentID objectKey fileName fileSize
        contentType now f = (db', .ok a') ∧
      a'.status = StatusSubmitted ∧
      a'.uploadID = some db.nextID ∧
      db'.findUpload db.nextID = some
        { id := db.nextID, assignmentID := assignmentID, clientID := clientID,
          trainerID := workout.trainerID, s3ObjectKey := objectKey,
          fileName := fileName, contentType := contentType, size := fileSize,
          uploadedAt := now } ∧
      db'.findAssignment assignmentID = some
        { assignment with
            uploadID := some db.nextID,
            status := StatusSubmitted,
            updatedAt := now } := by
  unfold ConfirmUpload
  rw [if_neg (by simp [hcid, haid, hkey])]
  simp only [hfound, hwfound]
  rw [if_neg (show ¬(workout.clientID ≠ clientID) by simp [hown])]
  rw [if_neg (by simp [hf1]), if_neg (by simp [hf2])]
  refine ⟨_, _, rfl, rfl, rfl, ?_, ?_⟩
  · simp only [DB.findUpload, DB.updateAssignment, DB.createUpload]
    rw [List.find?_append]
    have hnone : db.uploads.find? (fun u => u.id == db.nextID) = none := by
      rw [List.find?_eq_none]
      intro x hx
      simp only [beq_iff_eq]
      exact hfresh x hx
    rw [hnone]
    simp [List.find?]
  · exact find?_id_map_replace Assignment.id db.assignments assignmentID assignment
      { assignment with
          uploadID := some db.nextID,
          status := StatusSubmitted,
          updatedAt := now } rfl hfound

/-- Witness for the C5 theorem at the concrete fixture, confirming from
prior status "reviewed". -/
theorem confirmUpload_submits_witness :
    ∃ db' a',
      ConfirmUpload (baseDB StatusReviewed) 20 3 "k1" "clip.mp4" 10240 "video/mp4" 7
        noFaults = (db', .ok a') ∧
      a'.status = StatusSubmitted ∧
      a'.uploadID = some 50 ∧
      db'.findUpload 50 = some
        { id := 50, assignmentID := 3, clientID := 20, trainerID := 10,
          s3ObjectKey := "k1", fileName := "clip.mp4", contentType := "video/mp4",
          size := 10240, uploadedAt := 7 } ∧
      db'.findAssignment 3 = some
        { asg1 StatusReviewed with
            uploadID := some 50,
            status := StatusSubmitted,
            updatedAt := 7 } :=
  confirmUpload_submits (baseDB StatusReviewed) 20 3 "k1" "clip.mp4" 10240 "video/mp4" 7
    noFaults (asg1 StatusReviewed) wk1 (by decide) (by decide) (by decide) (by decide)
    (by decide) (by decide) (by decide) (by decide) (by decide)

/-- **C6**: the denormalized trainerID and clientID on a workout equal those
of its parent plan: CreateWorkout copies them from the resolved, trainer-owned
plan, and a successful UpdateWorkout changes only name, dayOfWeek, notes and
sequence — the parent linkage and the denormalized ids of the stored workout
are untouched. -/
theorem workout_denormalized_ids :
    (∀ (db : DB) (trainerID planID : Nat) (name : String) (dayOfWeek : Option Int)
        (notes : String) (sequence : Int) (now : Nat) (db' : DB) (w : Workout)
        (plan : TrainingPlan),
      db.findPlan planID = some plan →
      CreateWorkout db trainerID planID name dayOfWeek notes sequence now =
        (db', .ok w) →
      w.trainerID = plan.trainerID ∧ w.clientID = plan.clientID ∧
        w.trainingPlanID = planID)
    ∧ (∀ (db : DB) (trainerID planID workoutID : Nat) (updates : Workout) (now : Nat)
        (db' : DB) (w w0 : Workout),
      db.findWorkout workoutID = some w0 →
      UpdateWorkout db trainerID planID workoutID updates now = (db', .ok w) →
      w.trainerID = w0.trainerID ∧ w.clientID = w0.clientID ∧
        w.trainingPlanID = w0.trainingPlanID ∧
        db'.findWorkout workoutID = some { w with updatedAt := now }) := by
  constructor
  · intro db trainerID planID name dayOfWeek notes sequence now db' w plan hplan hok
    unfold CreateWorkout at hok
    split at hok
    · simp at hok
    · split at hok
      · simp at hok
      · next plan2 hplan2 =>
        split at hok
        · simp at hok
        · next hownb =>
          rw [Prod.ext_iff] at hok
          obtain ⟨hdb, hres⟩ := hok
          injection hres with hres
          rw [hplan] at hplan2
          injection hplan2 with hplan2
          subst hplan2
          rw [← hres]
          exact ⟨(not_ne_iff.mp hownb).symm, rfl, rfl⟩
  · intro db trainerID planID workoutID updates now db' w w0 hw0 hok
    unfold UpdateWorkout at hok
    split at hok
    · simp at hok
    · split at hok
      · simp at hok
      · next existing hex =>
        split at hok
        · simp at hok
        · split at hok
          · simp at hok
          · rw [Prod.ext_iff] at hok
            obtain ⟨hdb, hres⟩ := hok
            injection hres with hres
            rw [hw0] at hex
            injection hex with hex
            subst hex
            subst hres
            subst hdb
            refine ⟨rfl, rfl, rfl, ?_⟩
            exact find?_id_map_replace Workout.id db.workouts workoutID w0
              { w0 with
                  name := updates.name, dayOfWeek := updates.dayOfWeek,
                  notes := updates.notes, sequence := updates.sequence,
                  updatedAt := now } rfl hw0

/-- Fixture: the update payload (and, here, also the resulting record before
the repository stamps updatedAt) of the C6 witness run. -/
def wUpdates : Workout := { wk1 with name := "Day 1b", sequence := 4 }

/-- Fixture: the workout created in the C6 witness run. -/
def wCreated : Workout :=
  { id := 50, trainingPlanID := 1, trainerID := 10, clientID := 20, name := "Day 2",
    dayOfWeek := none, notes := "", sequence := 1, createdAt := 5, updatedAt := 5 }

/-- Witness for the C6 theorem: one concrete CreateWorkout run and one
concrete UpdateWorkout run on the fixture. -/
theorem workout_denormalized_ids_witness :
    (wCreated.trainerID = plan1.trainerID ∧ wCreated.clientID = plan1.clientID ∧
      wCreated.trainingPlanID = 1) ∧
    (wUpdates.trainerID = wk1.trainerID ∧ wUpdates.clientID = wk1.clientID ∧
      wUpdates.trainingPlanID = wk1.trainingPlanID ∧
      (UpdateWorkout (baseDB StatusAssigned) 10 1 2 wUpdates 6).1.findWorkout 2 =
        some { wUpdates with updatedAt := 6 }) :=
  ⟨workout_denormalized_ids.1 (baseDB StatusAssigned) 10 1 "Day 2" none "" 1 5
      (CreateWorkout (baseDB StatusAssigned) 10 1 "Day 2" none "" 1 5).1 wCreated plan1
      (by decide) (by decide),
   workout_denormalized_ids.2 (baseDB StatusAssigned) 10 1 2 wUpdates 6
      (UpdateWorkout (baseDB StatusAssigned) 10 1 2 wUpdates 6).1 wUpdates wk1
      (by decide) (by decide)⟩

/-- **C8**: for an assignment owned by the calling client, logging performance
records the achieved metrics and client notes, and sets the status to
"completed" exactly when the prior status was "assigned"; any other prior
status ("submitted", "reviewed", "completed") is left unchanged.  The
persisted record agrees with the returned one. -/
theorem logPerformance_status_rule (db : DB) (clientID assignmentID : Nat)
    (performanceData : Assignment) (now : Nat) (a : Assignment) (w : Workout)
    (hcid : clientID ≠ 0) (haid : assignmentID ≠ 0)
    (hfound : db.findAssignment assignmentID = some a)
    (hwfound : db.findWorkout a.workoutID = some w)
    (hown : w.clientID = clientID) :
    ∃ db' a',
      LogPerformanceForMyAssignment db clientID assignmentID performanceData now =
        (db', .ok a') ∧
      a'.status = (if a.status = StatusAssigned then StatusCompleted else a.status) ∧
      a'.achievedSets = performanceData.achievedSets ∧
      a'.achievedReps = performanceData.achievedReps ∧
      a'.achievedWeight = performanceData.achievedWeight ∧
      a'.achievedDuration = performanceData.achievedDuration ∧
      a'.clientPerformanceNotes = performanceData.clientPerformanceNotes ∧
      a'.uploadID = a.uploadID ∧ a'.feedback = a.feedback ∧
      db'.findAssignment assignmentID = some a' := by
  unfold LogPerformanceForMyAssignment
  rw [if_neg (by simp [hcid, haid])]
  simp only [hfound, hwfound]
  rw [if_neg (show ¬(w.clientID ≠ clientID) by simp [hown])]
  by_cases hst : a.status = StatusAssigned
  · rw [if_pos (show ({ a with
        achievedSets := performanceData.achievedSets,
        achievedReps := performanceData.achievedReps,
        achievedWeight := performanceData.achievedWeight,
        achievedDuration := performanceData.achievedDuration,
        clientPerformanceNotes := performanceData.clientPerformanceNotes } :
          Assignment).status = StatusAssigned from hst)]
    refine ⟨_, _, rfl, by rw [if_pos hst], rfl, rfl, rfl, rfl, rfl, rfl, rfl, ?_⟩
    exact find?_id_map_replace Assignment.id db.assignments assignmentID a
      { a with
          achievedSets := performanceData.achievedSets,
          achievedReps := performanceData.achievedReps,
          achievedWeight := performanceData.achievedWeight,
          achievedDuration := performanceData.achievedDuration,
          clientPerformanceNotes := performanceData.clientPerformanceNotes,
          status := StatusCompleted,
          updatedAt := now } rfl hfound
  · rw [if_neg (show ¬ (({ a with
        achievedSets := performanceData.achievedSets,
        achievedReps := performanceData.achievedReps,
        achievedWeight := performanceData.achievedWeight,
        achievedDuration := performanceData.achievedDuration,
        clientPerformanceNotes := performanceData.clientPerformanceNotes } :
          Assignment).status = StatusAssigned) from hst)]
    refine ⟨_, _, rfl, by rw [if_neg hst], rfl, rfl, rfl, rfl, rfl, rfl, rfl, ?_⟩
    exact find?_id_map_replace Assignment.id db.assignments assignmentID a
      { a with
          achievedSets := performanceData.achievedSets,
          achievedReps := performanceData.achievedReps,
          achievedWeight := performanceData.achievedWeight,
          achievedDuration := performanceData.achievedDuration,
          clientPerformanceNotes := performanceData.clientPerformanceNotes,
          updatedAt := now } rfl hfound

/-- Fixture: the performance payload for the C8 witness run (only the
achieved fields are read from it). -/
def perfData : Assignment :=
  { asg1 StatusAssigned with
      achievedSets := some 5,
      achievedReps := some "10",
      clientPerformanceNotes := some "felt strong" }

/-- Witness for the C8 theorem: logging performance on the fixture
assignment while it is "submitted" records the metrics and leaves the status
at "submitted". -/
theorem logPerformance_status_rule_witness :
    ∃ db' a',
      LogPerformanceForMyAssignment (baseDB StatusSubmitted) 20 3 perfData 8 =
        (db', .ok a') ∧
      a'.status = (if (asg1 StatusSubmitted).status = StatusAssigned then
        StatusCompleted else (asg1 StatusSubmitted).status) ∧
      a'.achievedSets = perfData.achievedSets ∧
      a'.achievedReps = perfData.achievedReps ∧
      a'.achievedWeight = perfData.achievedWeight ∧
      a'.achievedDuration = perfData.achievedDuration ∧
      a'.clientPerformanceNotes = perfData.clientPerformanceNotes ∧
      a'.uploadID = (asg1 StatusSubmitted).uploadID ∧
      a'.feedback = (asg1 StatusSubmitted).feedback ∧
      db'.findAssignment 3 = some a' :=
  logPerformance_status_rule (baseDB StatusSubmitted) 20 3 perfData 8
    (asg1 StatusSubmitted) wk1 (by decide) (by decide) (by decide) (by decide) (by decide)

/-- **C10**: UpdateMyAssignmentStatus validates only the requested value
("completed") and ownership; it never inspects the assignment's current
status, so for the owning client the update succeeds from every prior status
— including "submitted" and "reviewed" — and the downgrade is persisted. -/
theorem updateMyAssignmentStatus_ignores_prior (db : DB) (clientID assignmentID : Nat)
    (now : Nat) (a : Assignment) (w : Workout)
    (hcid : clientID ≠ 0) (haid : assignmentID ≠ 0)
    (hfound : db.findAssignment assignmentID = some a)
    (hwfound : db.findWorkout a.workoutID = some w)
    (hown : w.clientID = clientID) :
    ∃ db',
      UpdateMyAssignmentStatus db clientID assignmentID StatusCompleted now =
        (db', .ok { a with status := StatusCompleted, updatedAt := now }) ∧
      db'.findAssignment assignmentID =
        some { a with status := StatusCompleted, updatedAt := now } := by
  unfold UpdateMyAssignmentStatus
  rw [if_neg (by simp [hcid, haid]), if_neg (by decide), if_neg (by decide)]
  simp only [hfound, hwfound]
  rw [if_neg (show ¬(w.clientID ≠ clientID) by simp [hown])]
  refine ⟨_, rfl, ?_⟩
  exact find?_id_map_replace Assignment.id db.assignments assignmentID a
    { a with status := StatusCompleted, updatedAt := now } rfl hfound

/-- Witness for the C10 theorem: the fixture assignment is downgraded from
"reviewed" to "completed". -/
theorem updateMyAssignmentStatus_ignores_prior_witness :
    ∃ db',
      UpdateMyAssignmentStatus (baseDB StatusReviewed) 20 3 StatusCompleted 8 =
        (db', .ok { asg1 StatusReviewed with status := StatusCompleted, updatedAt := 8 }) ∧
      db'.findAssignment 3 =
        some { asg1 StatusReviewed with status := StatusCompleted, updatedAt := 8 } :=
  updateMyAssignmentStatus_ignores_prior (baseDB StatusReviewed) 20 3 8
    (asg1 StatusReviewed) wk1 (by decide) (by decide) (by decide) (by decide) (by decide)

/-- **C1**: when the assignment update fails after the Upload record was
created, ConfirmUpload reports ErrUploadConfirmationFailed, but the
compensating delete of the orphaned Upload record — present only as
commented-out code in the source — does not happen: the resulting store
still resolves the freshly created Upload (id 50) while the assignment keeps
no upload reference. -/
theorem confirmUpload_orphan_on_update_failure :
    (ConfirmUpload (baseDB StatusAssigned) 20 3 "k1" "clip.mp4" 10240 "video/mp4" 7
        { assignmentUpdateFails := true }).2 = .error .errUploadConfirmationFailed ∧
    (ConfirmUpload (baseDB StatusAssigned) 20 3 "k1" "clip.mp4" 10240 "video/mp4" 7
        { assignmentUpdateFails := true }).1.findUpload 50 = some
      { id := 50, assignmentID := 3, clientID := 20, trainerID := 10,
        s3ObjectKey := "k1", fileName := "clip.mp4", contentType := "video/mp4",
        size := 10240, uploadedAt := 7 } ∧
    (ConfirmUpload (baseDB StatusAssigned) 20 3 "k1" "clip.mp4" 10240 "video/mp4" 7
        { assignmentUpdateFails := true }).1.findAssignment 3 =
      some (asg1 StatusAssigned) := by decide

/-- **C2**: the trainer can never re-issue an assignment: the service rejects
newStatus "assigned" — both called directly and through the HTTP handler,
whose own validation (which matches the spec) admits exactly "reviewed" and
"assigned" — while the service accepts "completed", a value the handler
rejects; only "reviewed" succeeds end to end. -/
theorem submitFeedback_transition_mismatch :
    (SubmitFeedback (baseDB StatusSubmitted) 10 3 "good" StatusAssigned 9).2 =
      .error (.invalidInput "invalid status transition for feedback") ∧
    (SubmitFeedbackForAssignment (baseDB StatusSubmitted) 10 3 "good" StatusAssigned 9).2 =
      .error (.invalidInput "invalid status transition for feedback") ∧
    (SubmitFeedback (baseDB StatusSubmitted) 10 3 "good" StatusCompleted 9).2 =
      .ok { asg1 StatusCompleted with feedback := "good" } ∧
    (SubmitFeedbackForAssignment (baseDB StatusSubmitted) 10 3 "good" StatusCompleted 9).2 =
      .error (.invalidInput "Invalid target status provided by trainer.") ∧
    (SubmitFeedbackForAssignment (baseDB StatusSubmitted) 10 3 "good" StatusReviewed 9).2 =
      .ok { asg1 StatusReviewed with feedback := "good" } := by decide

/-- **C3** (counterexample): on the fixture, the "no upload linked yet" case
(assignment 3) and the "upload reference dangles" case (assignment 4, whose
upload 99 is absent) yield the *same* error per role for both
GetMyVideoDownloadURL and GetAssignmentVideoDownloadURL, refuting the claimed
distinction. -/
theorem downloadURL_cases_not_distinct :
    GetMyVideoDownloadURL (baseDB StatusSubmitted) 20 3 noFaults =
      .error .errUploadMetadataMissing ∧
    GetMyVideoDownloadURL (baseDB StatusSubmitted) 20 4 noFaults =
      .error .errUploadMetadataMissing ∧
    GetAssignmentVideoDownloadURL (baseDB StatusSubmitted) 10 3 noFaults =
      .error .errUploadNotFoundForAssignment ∧
    GetAssignmentVideoDownloadURL (baseDB StatusSubmitted) 10 4 noFaults =
      .error .errUploadNotFoundForAssignment := by decide

/-- **C3** (amended): for an owned assignment, both download-URL operations
fail when no upload is linked and also when the reference dangles, but each
role surfaces one single error for both cases — ErrUploadMetadataMissing on
the client path and ErrUploadNotFoundForAssignment on the trainer path — and
no distinct data-consistency fault exists for the dangling-reference case. -/
theorem downloadURL_one_error_both_cases (db : DB) (clientID trainerID assignmentID : Nat)
    (f : Faults) (a : Assignment) (w : Workout)
    (htid : trainerID ≠ 0) (haid : assignmentID ≠ 0)
    (hfound : db.findAssignment assignmentID = some a)
    (hwfound : db.findWorkout a.workoutID = some w)
    (hcl : w.clientID = clientID) (htr : w.trainerID = trainerID)
    (hmiss : a.uploadID = none ∨
      ∃ uid, a.uploadID = some uid ∧ uid ≠ 0 ∧ db.findUpload uid = none) :
    GetMyVideoDownloadURL db clientID assignmentID f =
      .error .errUploadMetadataMissing ∧
    GetAssignmentVideoDownloadURL db trainerID assignmentID f =
      .error .errUploadNotFoundForAssignment := by
  constructor
  · unfold GetMyVideoDownloadURL
    simp only [hfound, hwfound]
    rw [if_neg (show ¬(w.clientID ≠ clientID) by simp [hcl])]
    rcases hmiss with hnone | ⟨uid, hsome, hnz, hupmiss⟩
    · rw [hnone]
    · simp only [hsome, hupmiss]
      rw [if_neg hnz]
  · unfold GetAssignmentVideoDownloadURL
    rw [if_neg (by simp [htid, haid])]
    simp only [hfound, hwfound]
    rw [if_neg (show ¬(w.trainerID ≠ trainerID) by simp [htr])]
    rcases hmiss with hnone | ⟨uid, hsome, hnz, hupmiss⟩
    · rw [hnone]
    · simp only [hsome, hupmiss]
      rw [if_neg hnz]

/-- Witness for the amended C3 theorem at the dangling-reference fixture
assignment. -/
theorem downloadURL_one_error_both_cases_witness :
    GetMyVideoDownloadURL (baseDB StatusAssigned) 20 4 noFaults =
      .error .errUploadMetadataMissing ∧
    GetAssignmentVideoDownloadURL (baseDB StatusAssigned) 10 4 noFaults =
      .error .errUploadNotFoundForAssignment :=
  downloadURL_one_error_both_cases (baseDB StatusAssigned) 20 10 4 noFaults asgDangling
    wk1 (by decide) (by decide) (by decide) (by decide) (by decide) (by decide)
    (Or.inr ⟨99, by decide, by decide, by decide⟩)

/-- **C9** (counterexample): confirming an upload for fixture assignment 3
after its workout record disappeared fails with ErrWorkoutNotFound — exactly
the error value an ordinary client read path (GetAssignmentsForMyWorkout on
an absent workout id) uses for a plainly missing workout, so the
data-consistency case is not reported distinctly from ordinary workout
absence. -/
theorem confirmUpload_dangling_vs_plain_not_found :
    (ConfirmUpload { baseDB StatusAssigned with workouts := [] } 20 3 "k1" "c.mp4" 1
        "video/mp4" 7 noFaults).2 = .error .errWorkoutNotFound ∧
    GetAssignmentsForMyWorkout (baseDB StatusAssigned) 20 77 =
      .error .errWorkoutNotFound := by decide

/-- **C9** (amended): ConfirmUpload on an assignment whose parent workout
cannot be resolved fails with ErrWorkoutNotFound before any mutation — an
error value different from the ErrAssignmentNotFound this operation uses for
an absent assignment, but the very same generic workout-not-found error the
rest of the service uses for an ordinarily absent workout; no dedicated
data-consistency fault is raised. -/
theorem confirmUpload_dangling_workout (db : DB) (clientID assignmentID : Nat)
    (objectKey fileName : String) (fileSize : Int) (contentType : String)
    (now : Nat) (f : Faults) (a : Assignment)
    (hcid : clientID ≠ 0) (haid : assignmentID ≠ 0) (hkey : objectKey ≠ "")
    (hfound : db.findAssignment assignmentID = some a)
    (hwmiss : db.findWorkout a.workoutID = none) :
    ConfirmUpload db clientID assignmentID objectKey fileName fileSize contentType
        now f = (db, .error .errWorkoutNotFound) ∧
    SvcError.errWorkoutNotFound ≠ SvcError.errAssignmentNotFound := by
  refine ⟨?_, by decide⟩
  unfold ConfirmUpload
  rw [if_neg (by simp [hcid, haid, hkey])]
  simp only [hfound, hwmiss]

/-- Witness for the amended C9 theorem at the fixture with the workout
collection emptied. -/
theorem confirmUpload_dangling_workout_witness :
    ConfirmUpload { baseDB StatusAssigned with workouts := [] } 20 3 "k1" "c.mp4" 1
        "video/mp4" 7 noFaults =
      ({ baseDB StatusAssigned with workouts := [] }, .error .errWorkoutNotFound) ∧
    SvcError.errWorkoutNotFound ≠ SvcError.errAssignmentNotFound :=
  confirmUpload_dangling_workout { baseDB StatusAssigned with workouts := [] } 20 3
    "k1" "c.mp4" 1 "video/mp4" 7 noFaults (asg1 StatusAssigned) (by decide) (by decide)
    (by decide) (by decide) (by decide)

/-- **C7** (counterexample): with plan 1 already active for the pair
(trainer 10, client 20), CreateTrainingPlan with isActive = true succeeds and
leaves *two* active plans for the pair — the deactivation step is commented
out in the source — refuting the claim for plan-creating operations. -/
theorem createPlan_leaves_two_active :
    (CreateTrainingPlan (baseDB StatusAssigned) 10 20 "P2" "" none none true 5).2 =
      .ok { id := 50, trainerID := 10, clientID := 20, name := "P2", description := "",
            startDate := none, endDate := none, isActive := true,
            createdAt := 5, updatedAt := 5 } ∧
    ((CreateTrainingPlan (baseDB StatusAssigned) 10 20 "P2" "" none none true 5).1.plans.filter
        (fun p => p.clientID == 20 && p.trainerID == 10 && p.isActive)).length = 2 := by
  decide

/-- After DeactivateOtherPlansForClient, every still-active plan of the
client-trainer pair is the excluded one. -/
theorem deactivateOtherPlans_spec (db : DB) (c t e now : Nat) :
    ∀ q ∈ (DeactivateOtherPlansForClient db c t e now).plans,
      q.trainerID = t → q.clientID = c → q.isActive = true → q.id = e := by
  intro q hq htr hcl hact
  simp only [DeactivateOtherPlansForClient, List.mem_map] at hq
  obtain ⟨r, hr, hrq⟩ := hq
  by_cases hcond : (r.clientID == c && r.trainerID == t && r.isActive && r.id != e) = true
  · rw [if_pos hcond] at hrq
    rw [← hrq] at hact
    simp at hact
  · rw [if_neg hcond] at hrq
    subst hrq
    by_contra hne
    apply hcond
    simp only [Bool.and_eq_true, beq_iff_eq, bne_iff_ne, ne_eq]
    exact ⟨⟨⟨hcl, htr⟩, hact⟩, hne⟩

/-- **C7** (amended): only UpdateTrainingPlan enforces the single-active-plan
policy, and only when it flips isActive from false to true: then every other
plan of the client-trainer pair is left inactive, so the updated plan is the
only active one for the pair.  (CreateTrainingPlan performs no deactivation —
see the counterexample.) -/
theorem updateTrainingPlan_single_active (db : DB) (trainerID planID : Nat)
    (updates : TrainingPlan) (now : Nat) (existing : TrainingPlan)
    (htid : trainerID ≠ 0) (hpid : planID ≠ 0) (hname : updates.name ≠ "")
    (hfound : db.findPlan planID = some existing)
    (hown : existing.trainerID = trainerID)
    (hcli : ¬ (existing.clientID ≠ updates.clientID ∧ updates.clientID ≠ 0))
    (hact : updates.isActive = true) (hwas : existing.isActive = false) :
    ∃ db' p',
      UpdateTrainingPlan db trainerID planID updates now = (db', .ok p') ∧
      p'.isActive = true ∧ p'.id = planID ∧
      (∀ q ∈ db'.plans, q.trainerID = trainerID → q.clientID = existing.clientID →
        q.isActive = true → q.id = planID) := by
  have hfound' : db.plans.find? (fun p => p.id == planID) = some existing := hfound
  have hid : existing.id = planID := by
    have := List.find?_some hfound'
    simpa using this
  unfold UpdateTrainingPlan
  rw [if_neg (by simp [htid, hpid, hname])]
  simp only [hfound]
  rw [if_neg (show ¬(existing.trainerID ≠ trainerID) by simp [hown]), if_neg hcli]
  rw [if_pos (by simp [hact, hwas])]
  refine ⟨_, _, rfl, hact, hid, ?_⟩
  intro q hq htr hcl hqa
  simp only [DB.updatePlan, List.mem_map] at hq
  obtain ⟨r, hr, hrq⟩ := hq
  by_cases hrid : r.id = planID
  · rw [← hrq]
    by_cases hsel : (r.id == ({ existing with
        name := updates.name, description := updates.description,
        startDate := updates.startDate, endDate := updates.endDate,
        isActive := updates.isActive } : TrainingPlan).id) = true
    · rw [if_pos hsel]
      exact hrid
    · rw [if_neg hsel]
      exact hrid
  · have hne : ¬ ((r.id == ({ existing with
        name := updates.name, description := updates.description,
        startDate := updates.startDate, endDate := updates.endDate,
        isActive := updates.isActive } : TrainingPlan).id) = true) := by
      simp only [beq_iff_eq]
      intro hcontra
      exact hrid (hcontra.trans hid)
    rw [if_neg hne] at hrq
    subst hrq
    exact absurd (deactivateOtherPlans_spec db existing.clientID trainerID planID now
      r hr htr hcl hqa) hrid

/-- Fixture: a second, inactive plan (id 9) for the pair (trainer 10,
client 20). -/
def plan9 : TrainingPlan :=
  { id := 9, trainerID := 10, clientID := 20, name := "P9", description := "",
    startDate := none, endDate := none, isActive := false,
    createdAt := 0, updatedAt := 0 }

/-- Fixture: the store holding both the active plan 1 and the inactive
plan 9 for the same pair. -/
def dbTwoPlans : DB := { baseDB StatusAssigned with plans := [plan1, plan9] }

/-- Witness for the amended C7 theorem: activating plan 9 deactivates
plan 1, leaving plan 9 the only active plan of the pair. -/
theorem updateTrainingPlan_single_active_witness :
    ∃ db' p',
      UpdateTrainingPlan dbTwoPlans 10 9 { plan9 with isActive := true } 6 =
        (db', .ok p') ∧
      p'.isActive = true ∧ p'.id = 9 ∧
      (∀ q ∈ db'.plans, q.trainerID = 10 → q.clientID = plan9.clientID →
        q.isActive = true → q.id = 9) :=
  updateTrainingPlan_single_active dbTwoPlans 10 9 { plan9 with isActive := true } 6
    plan9 (by decide) (by decide) (by decide) (by decide) (by decide) (by decide)
    (by decide) (by decide)

end FitnessApp
